import Mathlib

/-!
Shallow embedding of the build-time GDAL locator/linker (`src-tauri/build.rs`)
and the two Tauri command handlers (`src-tauri/src/lib.rs`) of the
tauri-gdal-template repository, together with theorems checking the
specification's claims about them.

The filesystem, the process environment, subprocess invocations and the native
GDAL library are modelled as explicit oracle states.  String helpers of the
Rust standard library (`str::trim`, `str::starts_with`, `str::contains`,
`Path::extension`, `Path::parent`) are re-implemented over character lists so
that every definition evaluates inside the kernel.
-/

/-- Host platform selected by `cfg!(target_os = ...)` in the sources. -/
inductive Platform where
  | windows
  | linux
deriving DecidableEq

/-- Re-implementation of `str::trim` over the character list of a string. -/
def rust_trim (s : String) : String :=
  String.mk (((s.data.dropWhile Char.isWhitespace).reverse.dropWhile Char.isWhitespace).reverse)

/-- Re-implementation of `str::starts_with` for string patterns. -/
def rust_starts_with (s pat : String) : Bool :=
  pat.data.isPrefixOf s.data

/-- Character-list worker for `rust_contains`: does `pat` occur as a
contiguous sublist? -/
def char_list_has_sub (pat : List Char) : List Char → Bool
  | [] => pat.isEmpty
  | c :: t => pat.isPrefixOf (c :: t) || char_list_has_sub pat t

/-- Re-implementation of `str::contains` for string patterns. -/
def rust_contains (s pat : String) : Bool :=
  char_list_has_sub pat.data s.data

/-- Splitting a character list at a separator character. -/
def split_char (c : Char) : List Char → List (List Char)
  | [] => [[]]
  | x :: t =>
    match split_char c t with
    | [] => [[]]
    | h :: r => if x = c then [] :: h :: r else (x :: h) :: r

/-- Interleaving a separator character between character-list chunks. -/
def char_intercalate (c : Char) : List (List Char) → List Char
  | [] => []
  | [x] => x
  | x :: y :: r => x ++ c :: char_intercalate c (y :: r)

/-- Re-implementation of `Path::extension` on a plain file name: the portion
after the last dot, or `none` when there is no dot or the only dot is the
leading character. -/
def file_extension (name : String) : Option String :=
  match split_char '.' name.data with
  | [] => none
  | [_] => none
  | [[], _] => none
  | parts => Option.map String.mk parts.getLast?

/-- Model of `Path::parent` for the ordinary multi-component paths produced by
the glob oracle (drop the last `/`-separated component). -/
def parent_path (s : String) : Option String :=
  match split_char '/' s.data with
  | [] => none
  | [_] => none
  | parts => some (String.mk (char_intercalate '/' parts.dropLast))

/-- First result of an option-valued function over a list (models the early
`return` inside the Rust `for` loops). -/
def firstSome {α β : Type} (f : α → Option β) : List α → Option β
  | [] => none
  | a :: l =>
    match f a with
    | some b => some b
    | none => firstSome f l

/-- Filesystem oracle: existence, directory-listing, file contents, plus an
oracle describing which `fs::copy` calls fail and with which error text. -/
structure BuildFs where
  pathExists : String → Bool
  isDir : String → Bool
  readDir : String → Option (List String)
  content : String → Option String
  copyFails : String → String → Bool
  copyErr : String → String → String

/-- Result of a spawned subprocess: exit status plus captured stdout. -/
structure CmdOut where
  success : Bool
  stdout : String
deriving DecidableEq

/-- Process-environment and subprocess oracles visible to `build.rs`:
environment variables, the `pkg-config --variable=prefix gdal` invocation,
the `spack location -i gdal` invocation, and the `glob::glob` matcher
(`none` models a spawn error or an invalid pattern). -/
structure BuildEnv where
  var : String → Option String
  pkg_config_out : Option CmdOut
  spack_location_out : Option CmdOut
  glob : String → Option (List String)

/-- Complete state seen by the build script. -/
structure BuildState where
  fs : BuildFs
  env : BuildEnv

/-- One discovered candidate installation of the native library (§3 of the
spec): root, lib dir, include dir and the shared-library/import-library file. -/
structure DiscoveryResult where
  root : String
  lib_dir : String
  include_dir : String
  lib_file : String
deriving DecidableEq

/-- Trace element for everything `build.rs` emits: `cargo:warning` diagnostics,
`cargo:rustc-*` directives and `env::set_var` mutations. -/
inductive Emission where
  | warning (msg : String)
  | rustcEnv (key value : String)
  | linkSearch (dir : String)
  | linkLib (spec : String)
  | linkArg (arg : String)
  | setVar (key value : String)
deriving DecidableEq

/-- Diagnostics-only test on an emission. -/
def isWarning : Emission → Bool
  | .warning _ => true
  | _ => false

/-- Linkage/configuration (non-diagnostic) test on an emission. -/
def isLinkEmission (e : Emission) : Bool :=
  !(isWarning e)

/-- Model of `fs::copy src dst`: fails when the failure oracle says so or the
source is unreadable; on success the destination receives the source bytes and
starts existing. -/
def fsCopy (fs : BuildFs) (src dst : String) : BuildFs × Bool :=
  if fs.copyFails src dst then (fs, false)
  else
    match fs.content src with
    | none => (fs, false)
    | some bytes =>
      ({ fs with
          content := fun p => if p = dst then some bytes else fs.content p,
          pathExists := fun p => if p = dst then true else fs.pathExists p },
        true)

/-- Embedding of `configure_gdal_paths` from `build.rs`: environment exports,
rustc env directives, link search path, platform link-library declaration,
direct link argument, and the duplicated search path for pixi roots. -/
def configure_gdal_paths (plat : Platform) (gdal_root lib_dir include_dir gdal_lib_file : String) :
    List Emission :=
  [Emission.setVar "GDAL_ROOT" gdal_root,
   Emission.setVar "GDAL_HOME" gdal_root,
   Emission.setVar "GDAL_LIB_DIR" lib_dir,
   Emission.setVar "GDAL_INCLUDE_DIR" include_dir,
   Emission.rustcEnv "GDAL_ROOT" gdal_root,
   Emission.rustcEnv "GDAL_HOME" gdal_root,
   Emission.rustcEnv "GDAL_LIB_DIR" lib_dir,
   Emission.rustcEnv "GDAL_INCLUDE_DIR" include_dir,
   Emission.linkSearch lib_dir,
   (match plat with
    | .windows => Emission.linkLib "dylib=gdal_i"
    | .linux => Emission.linkLib "gdal"),
   Emission.linkArg gdal_lib_file]
  ++ (if rust_contains gdal_root "pixi" then [Emission.linkSearch lib_dir] else [])

/-- Embedding of `find_system_gdal_path`: the pkg-config query (accepted when
it succeeds with a non-empty existing prefix path), otherwise the fixed list of
conventional prefixes probed for `lib/libgdal.so`. -/
def find_system_gdal_path (st : BuildState) : Option String :=
  let viaPkg : Option String :=
    match st.env.pkg_config_out with
    | some output =>
      if output.success then
        let path := rust_trim output.stdout
        if path = "" then none
        else if st.fs.pathExists path then some path
        else none
      else none
    | none => none
  match viaPkg with
  | some p => some p
  | none =>
    List.find? (fun p => st.fs.pathExists (p ++ "/lib/libgdal.so"))
      ["/usr", "/usr/local", "/opt/gdal"]

/-- Embedding of `find_pixi_gdal_path`: scan `~/.pixi/envs` for an environment
whose `bin/gdalinfo` exists; otherwise glob the conventional pattern and take
the grandparent of the first existing match. -/
def find_pixi_gdal_path (st : BuildState) (home : String) : Option String :=
  let pixi_envs_dir := home ++ "/.pixi/envs"
  let scanned : Option String :=
    if st.fs.pathExists pixi_envs_dir then
      match st.fs.readDir pixi_envs_dir with
      | some entries =>
        Option.map (fun name => pixi_envs_dir ++ "/" ++ name)
          (List.find?
            (fun name => st.fs.pathExists (pixi_envs_dir ++ "/" ++ name ++ "/bin/gdalinfo"))
            entries)
      | none => none
    else none
  match scanned with
  | some p => some p
  | none =>
    match st.env.glob (home ++ "/.pixi/envs/*/bin/gdalinfo") with
    | some entries =>
      firstSome
        (fun entry =>
          if st.fs.pathExists entry then Option.bind (parent_path entry) parent_path
          else none)
        entries
    | none => none

/-- Embedding of `find_spack_gdal_path`: when `~/spack` exists, try
`spack location -i gdal` (accepted when it succeeds with a non-empty existing
path); otherwise glob two version-templated patterns and take the first
directory match. -/
def find_spack_gdal_path (st : BuildState) (home : String) : Option String :=
  let viaCmd : Option String :=
    if st.fs.pathExists (home ++ "/spack") then
      match st.env.spack_location_out with
      | some output =>
        if output.success then
          let path := rust_trim output.stdout
          if path = "" then none
          else if st.fs.pathExists path then some path
          else none
        else none
      | none => none
    else none
  match viaCmd with
  | some p => some p
  | none =>
    firstSome
      (fun pattern =>
        match st.env.glob pattern with
        | some entries => List.find? (fun e => st.fs.isDir e) entries
        | none => none)
      [home ++ "/spack/opt/spack/linux-*/gcc-*/gdal-3.10.3-*",
       home ++ "/spack/opt/spack/linux-*/gcc-*/gdal-*"]

/-- Lib/include/lib-file layout derived from a candidate root, exactly as the
`format!` calls in `configure_linux_gdal` build it. -/
def gdal_paths_for (root : String) : DiscoveryResult :=
  { root := root,
    lib_dir := root ++ "/lib",
    include_dir := root ++ "/include",
    lib_file := root ++ "/lib/libgdal.so" }

/-- Acceptance check shared by all three Unix strategies: the candidate root
must contain `lib/libgdal.so`. -/
def lib_ok (st : BuildState) (root : String) : Bool :=
  st.fs.pathExists (root ++ "/lib/libgdal.so")

/-- Third stage of `configure_linux_gdal`: the spack strategy, reached when the
first two strategies contributed nothing. -/
def linux_step_spack (st : BuildState) (home : String) :
    Option DiscoveryResult × List Emission :=
  match find_spack_gdal_path st home with
  | some root =>
    let r := gdal_paths_for root
    if st.fs.pathExists r.lib_file then
      (some r, configure_gdal_paths .linux r.root r.lib_dir r.include_dir r.lib_file)
    else (none, [Emission.warning ("GDAL library not found at: " ++ r.lib_file)])
  | none =>
    (none, [Emission.warning "GDAL installation not found via system, pixi, or spack"])

/-- Second stage of `configure_linux_gdal`: the pixi strategy, falling through
to the spack stage on failure. -/
def linux_step_pixi (st : BuildState) (home : String) :
    Option DiscoveryResult × List Emission :=
  match find_pixi_gdal_path st home with
  | some root =>
    let r := gdal_paths_for root
    if st.fs.pathExists r.lib_file then
      (some r, configure_gdal_paths .linux r.root r.lib_dir r.include_dir r.lib_file)
    else
      let next := linux_step_spack st home
      (next.1, Emission.warning ("GDAL library not found at: " ++ r.lib_file) :: next.2)
  | none => linux_step_spack st home

/-- First stage of `configure_linux_gdal`: the system strategy, falling through
to the pixi stage on failure. -/
def linux_step_system (st : BuildState) (home : String) :
    Option DiscoveryResult × List Emission :=
  match find_system_gdal_path st with
  | some root =>
    let r := gdal_paths_for root
    if st.fs.pathExists r.lib_file then
      (some r, configure_gdal_paths .linux r.root r.lib_dir r.include_dir r.lib_file)
    else
      let next := linux_step_pixi st home
      (next.1, Emission.warning ("GDAL library not found at: " ++ r.lib_file) :: next.2)
  | none => linux_step_pixi st home

/-- Embedding of `configure_linux_gdal`: requires `HOME`, then chains the
system, pixi and spack strategies. -/
def configure_linux_gdal (st : BuildState) : Option DiscoveryResult × List Emission :=
  match st.env.var "HOME" with
  | some home => linux_step_system st home
  | none => (none, [Emission.warning "HOME environment variable not found"])

/-- Fixed relative locations used by `configure_windows_gdal` below the user
profile directory. -/
def win_root (userprofile : String) : String :=
  userprofile ++ "\\.pixi\\envs\\gdal\\Library"

/-- Windows pixi lib directory. -/
def win_lib_dir (userprofile : String) : String :=
  userprofile ++ "\\.pixi\\envs\\gdal\\Library\\lib"

/-- Windows pixi include directory. -/
def win_include_dir (userprofile : String) : String :=
  userprofile ++ "\\.pixi\\envs\\gdal\\Library\\include"

/-- Primary Windows import library `gdal.lib`. -/
def win_lib_file (userprofile : String) : String :=
  userprofile ++ "\\.pixi\\envs\\gdal\\Library\\lib\\gdal.lib"

/-- Alternate Windows import library name `gdal_i.lib`. -/
def win_i_lib_file (userprofile : String) : String :=
  userprofile ++ "\\.pixi\\envs\\gdal\\Library\\lib\\gdal_i.lib"

/-- Alternate Windows import library name `gdal.dll.lib`. -/
def win_dll_lib_file (userprofile : String) : String :=
  userprofile ++ "\\.pixi\\envs\\gdal\\Library\\lib\\gdal.dll.lib"

/-- Output of the Windows branch: discovery result, emission trace and the
filesystem after the import-library synthesis copies. -/
structure WinOut where
  result : Option DiscoveryResult
  emissions : List Emission
  fs : BuildFs

/-- Embedding of `configure_windows_gdal`: single pixi strategy under
`USERPROFILE`, synthesis of the two alternate import-library names by copying
`gdal.lib`, then shared path configuration. -/
def configure_windows_gdal (st : BuildState) : WinOut :=
  match st.env.var "USERPROFILE" with
  | some userprofile =>
    if st.fs.pathExists (win_lib_file userprofile) then
      let step1 : BuildFs × List Emission :=
        if st.fs.pathExists (win_i_lib_file userprofile) = false then
          let c := fsCopy st.fs (win_lib_file userprofile) (win_i_lib_file userprofile)
          (c.1,
           [if c.2 then Emission.warning "Created gdal_i.lib from gdal.lib for compatibility"
            else Emission.warning ("Failed to create gdal_i.lib: " ++
              st.fs.copyErr (win_lib_file userprofile) (win_i_lib_file userprofile))])
        else (st.fs, [])
      let step2 : BuildFs × List Emission :=
        if step1.1.pathExists (win_dll_lib_file userprofile) = false then
          let c := fsCopy step1.1 (win_lib_file userprofile) (win_dll_lib_file userprofile)
          (c.1,
           step1.2 ++
           [if c.2 then Emission.warning "Created gdal.dll.lib from gdal.lib for compatibility"
            else Emission.warning ("Failed to create gdal.dll.lib: " ++
              step1.1.copyErr (win_lib_file userprofile) (win_dll_lib_file userprofile))])
        else step1
      { result := some
          { root := win_root userprofile,
            lib_dir := win_lib_dir userprofile,
            include_dir := win_include_dir userprofile,
            lib_file := win_lib_file userprofile },
        emissions := step2.2 ++
          configure_gdal_paths .windows (win_root userprofile) (win_lib_dir userprofile)
            (win_include_dir userprofile) (win_lib_file userprofile),
        fs := step2.1 }
    else
      { result := none,
        emissions := [Emission.warning ("GDAL.LIB NOT FOUND AT: " ++ win_lib_file userprofile)],
        fs := st.fs }
  | none =>
    { result := none,
      emissions := [Emission.warning "USERPROFILE environment variable not found"],
      fs := st.fs }

/-- Bundled library directory staged by `copy_gdal_libraries` per platform. -/
def stage_dir : Platform → String
  | .windows => "gdal-libs/windows"
  | .linux => "gdal-libs/linux"

/-- Windows stager filter: files whose `Path::extension` is `dll`. -/
def windows_lib_filter (name : String) : Bool :=
  match file_extension name with
  | some ext => ext = "dll"
  | none => false

/-- Linux stager filter: names starting with `lib` and containing `.so`. -/
def linux_lib_filter (name : String) : Bool :=
  rust_starts_with name "lib" && rust_contains name ".so"

/-- Platform dispatch of the stager filter. -/
def stage_filter : Platform → String → Bool
  | .windows => windows_lib_filter
  | .linux => linux_lib_filter

/-- Diagnostic line produced for one attempted copy, computed against the
filesystem the copy runs on. -/
def copy_emission (fs : BuildFs) (dir name : String) : Emission :=
  if (fsCopy fs (dir ++ "/" ++ name) ("./" ++ name)).2 then
    Emission.warning ("Copied " ++ (dir ++ "/" ++ name) ++ " to " ++ ("./" ++ name))
  else
    Emission.warning ("Failed to copy " ++ (dir ++ "/" ++ name) ++ ": " ++
      fs.copyErr (dir ++ "/" ++ name) ("./" ++ name))

/-- Per-entry loop body of `copy_gdal_libraries` over the directory listing:
each matching entry is copied to the current directory under its own file name,
each copy emitting one diagnostic and never aborting the remaining entries. -/
def copy_loop (filter : String → Bool) (dir : String) (fs : BuildFs) :
    List String → BuildFs × List Emission
  | [] => (fs, [])
  | name :: rest =>
    if filter name then
      let c := fsCopy fs (dir ++ "/" ++ name) ("./" ++ name)
      let e :=
        if c.2 then
          Emission.warning ("Copied " ++ (dir ++ "/" ++ name) ++ " to " ++ ("./" ++ name))
        else
          Emission.warning ("Failed to copy " ++ (dir ++ "/" ++ name) ++ ": " ++
            fs.copyErr (dir ++ "/" ++ name) ("./" ++ name))
      let next := copy_loop filter dir c.1 rest
      (next.1, e :: next.2)
    else copy_loop filter dir fs rest

/-- Embedding of `copy_gdal_libraries`: when the bundled platform directory
exists and can be listed, run the copy loop over its entries; otherwise do
nothing. -/
def copy_gdal_libraries (plat : Platform) (fs : BuildFs) : BuildFs × List Emission :=
  if fs.pathExists (stage_dir plat) then
    match fs.readDir (stage_dir plat) with
    | some names => copy_loop (stage_filter plat) (stage_dir plat) fs names
    | none => (fs, [])
  else (fs, [])

/-- Acceptance step applied to one strategy candidate (spec §3/§8 wording):
keep the candidate root only when it contains `lib/libgdal.so`. -/
def accept_candidate (st : BuildState) (cand : Option String) : Option String :=
  Option.bind cand (fun root => if lib_ok st root then some root else none)

/-- Spec-level accepted root on Unix: the first of the system / pixi / spack
candidates whose root passes the shared-library check. -/
def accepted_root (st : BuildState) (home : String) : Option String :=
  firstSome (accept_candidate st)
    [find_system_gdal_path st, find_pixi_gdal_path st home, find_spack_gdal_path st home]

/-- Linkage emissions demanded by an accepted root (empty when none). -/
def link_emissions_of : Option String → List Emission
  | some root =>
    configure_gdal_paths .linux (gdal_paths_for root).root (gdal_paths_for root).lib_dir
      (gdal_paths_for root).include_dir (gdal_paths_for root).lib_file
  | none => []

/-- Replacement of the oracles consulted only by the pixi and spack strategies
(directory listing, glob matching, the spack subprocess), used to state that
later strategies are not attempted once an earlier one is accepted. -/
def override_later (st : BuildState) (rd : String → Option (List String))
    (gl : String → Option (List String)) (sp : Option CmdOut) : BuildState :=
  { st with
      fs := { st.fs with readDir := rd },
      env := { st.env with glob := gl, spack_location_out := sp } }

/-- Path-list separator used by `env::split_paths` / `env::join_paths`. -/
def sep_char : Platform → Char
  | .windows => ';'
  | .linux => ':'

/-- Search variable consulted by `setup_gdal_runtime` per platform. -/
def search_var : Platform → String
  | .windows => "PATH"
  | .linux => "LD_LIBRARY_PATH"

/-- Test for the separator character occurring inside one path component. -/
def has_sep (plat : Platform) (p : String) : Bool :=
  p.data.any (fun c => c = sep_char plat)

/-- Model of `env::join_paths`: fails exactly when some component contains the
separator character.  Environment values are kept in split form (a list of
path components), so joining returns the component list itself. -/
def join_paths (plat : Platform) (ps : List String) : Option (List String) :=
  if ps.any (has_sep plat) then none else some ps

/-- Runtime process state seen by the command handlers: platform, result of
`env::current_dir()`, environment variables (in split-path form) and the
runtime filesystem existence oracle. -/
structure RtState where
  plat : Platform
  current_dir : Option String
  vars : String → Option (List String)
  path_exists : String → Bool

/-- Environment-variable update (`env::set_var`). -/
def rt_set_var (st : RtState) (key : String) (value : List String) : RtState :=
  { st with vars := fun q => if q = key then some value else st.vars q }

/-- Embedding of `setup_gdal_runtime` from `lib.rs`: prepend the current
working directory to `PATH` (Windows) or `LD_LIBRARY_PATH` (otherwise); on
Linux an unset variable is created holding just the current directory. -/
def setup_gdal_runtime (st : RtState) : RtState :=
  match st.plat with
  | .windows =>
    match st.current_dir with
    | some cwd =>
      match st.vars "PATH" with
      | some path =>
        match join_paths .windows (cwd :: path) with
        | some newPath => rt_set_var st "PATH" newPath
        | none => st
      | none => st
    | none => st
  | .linux =>
    match st.current_dir with
    | some cwd =>
      match st.vars "LD_LIBRARY_PATH" with
      | some libPath =>
        match join_paths .linux (cwd :: libPath) with
        | some newPath => rt_set_var st "LD_LIBRARY_PATH" newPath
        | none => st
      | none => rt_set_var st "LD_LIBRARY_PATH" [cwd]
    | none => st

/-- Raw dataset handle returned by a successful `Dataset::open`. -/
structure RawDataset where
  raster_size : Nat × Nat
  projection : String
  raster_count : Nat
  driver_long_name : String

/-- Oracle for the native GDAL library: version query, registered driver count,
per-index driver retrieval (short name, `none` on retrieval failure) and the
dataset-open call (error message or raw handle). -/
structure GdalLib where
  version_info : String → String
  driver_count : Nat
  get_driver : Nat → Option String
  open_dataset : String → Except String RawDataset

/-- Success payload of `get_gdal_info`. -/
structure GdalInfo where
  version : String
  supported_formats : List String
  platform : String
deriving DecidableEq

/-- Success payload of `get_dataset_info`. -/
structure DatasetInfo where
  size_x : Nat
  size_y : Nat
  projection : String
  band_count : Nat
  driver_name : String
deriving DecidableEq

/-- Name reported by `std::env::consts::OS`. -/
def os_name : Platform → String
  | .windows => "windows"
  | .linux => "linux"

/-- The `for i in 0..driver_count` loop of `get_gdal_info`, pushing the short
name of every driver whose retrieval succeeds. -/
def collect_formats (g : GdalLib) : List String :=
  (List.range g.driver_count).foldl
    (fun acc i =>
      match g.get_driver i with
      | some driver => acc ++ [driver]
      | none => acc)
    []

/-- Observable outcome of one `get_gdal_info` invocation. -/
structure InfoCall where
  state : RtState
  result : Except String GdalInfo

/-- Embedding of the `get_gdal_info` command handler. -/
def get_gdal_info (st : RtState) (g : GdalLib) : InfoCall :=
  { state := setup_gdal_runtime st,
    result := Except.ok
      { version := g.version_info "RELEASE_NAME",
        supported_formats := collect_formats g,
        platform := os_name st.plat } }

/-- Observable outcome of one `get_dataset_info` invocation, including whether
the native `Dataset::open` call was reached. -/
structure DatasetCall where
  state : RtState
  result : Except String DatasetInfo
  openInvoked : Bool

/-- Embedding of the `get_dataset_info` command handler. -/
def get_dataset_info (st : RtState) (g : GdalLib) (file_path : String) : DatasetCall :=
  let st' := setup_gdal_runtime st
  if st.path_exists file_path = false then
    { state := st',
      result := Except.error ("File not found: " ++ file_path),
      openInvoked := false }
  else
    match g.open_dataset file_path with
    | Except.error e =>
      { state := st', result := Except.error e, openInvoked := true }
    | Except.ok d =>
      { state := st',
        result := Except.ok
          { size_x := d.raster_size.1,
            size_y := d.raster_size.2,
            projection := d.projection,
            band_count := d.raster_count,
            driver_name := d.driver_long_name },
        openInvoked := true }

/-- Failure condition of the pkg-config query branch inside
`find_system_gdal_path`: spawn failure, non-zero exit, empty output, or an
output path that does not exist. -/
def pkg_query_rejected (st : BuildState) : Prop :=
  match st.env.pkg_config_out with
  | none => True
  | some output =>
    output.success = false ∨ rust_trim output.stdout = ""
      ∨ st.fs.pathExists (rust_trim output.stdout) = false

/-- Empty filesystem used as a base for concrete states. -/
def empty_fs : BuildFs :=
  { pathExists := fun _ => false,
    isDir := fun _ => false,
    readDir := fun _ => none,
    content := fun _ => none,
    copyFails := fun _ _ => false,
    copyErr := fun _ _ => "" }

/-- Concrete Unix state whose system strategy finds `/usr` via the fixed
prefix list. -/
def c1_state : BuildState :=
  { fs := { empty_fs with pathExists := fun p => p == "/usr/lib/libgdal.so" },
    env :=
      { var := fun k => if k == "HOME" then some "/home/user" else none,
        pkg_config_out := none,
        spack_location_out := none,
        glob := fun _ => none } }

/-- Concrete Unix state where pkg-config reports an existing prefix that lacks
`lib/libgdal.so`, while `/usr/lib/libgdal.so` exists. -/
def c2_state : BuildState :=
  { fs := { empty_fs with
      pathExists := fun p => p == "/pkgroot" || p == "/usr/lib/libgdal.so" },
    env :=
      { var := fun _ => none,
        pkg_config_out := some { success := true, stdout := "/pkgroot" },
        spack_location_out := none,
        glob := fun _ => none } }

/-- Concrete Unix state where pkg-config fails and only
`/usr/local/lib/libgdal.so` exists. -/
def c2b_state : BuildState :=
  { fs := { empty_fs with
      pathExists := fun p => p == "/usr/local/lib/libgdal.so" },
    env :=
      { var := fun _ => none,
        pkg_config_out := some { success := false, stdout := "" },
        spack_location_out := none,
        glob := fun _ => none } }

/-- Concrete Windows state with the primary import library present, both
alternates missing, and copies that succeed. -/
def c3_state : BuildState :=
  { fs := { empty_fs with
      pathExists := fun p => p == win_lib_file "C:\\u",
      content := fun p => if p == win_lib_file "C:\\u" then some "IMPORTLIB" else none },
    env :=
      { var := fun k => if k == "USERPROFILE" then some "C:\\u" else none,
        pkg_config_out := none,
        spack_location_out := none,
        glob := fun _ => none } }

/-- Concrete bundled-library directory with three matching Linux libraries
(one of which fails to copy) and one unrelated file. -/
def c4_state : BuildFs :=
  { pathExists := fun p => p == "gdal-libs/linux",
    isDir := fun _ => false,
    readDir := fun p =>
      if p == "gdal-libs/linux" then some ["liba.so", "libb.so", "libc.so", "notes.txt"]
      else none,
    content := fun p =>
      if p == "gdal-libs/linux/liba.so" then some "A"
      else if p == "gdal-libs/linux/libb.so" then some "B"
      else if p == "gdal-libs/linux/libc.so" then some "C"
      else if p == "gdal-libs/linux/notes.txt" then some "N"
      else none,
    copyFails := fun s _ => s == "gdal-libs/linux/libb.so",
    copyErr := fun _ _ => "permission denied" }

/-- Concrete Windows state where the primary import library exists but every
`fs::copy` fails: import-library synthesis fails while discovery succeeds. -/
def c7ce_state : BuildState :=
  { fs := { empty_fs with
      pathExists := fun p => p == win_lib_file "C:\\u",
      content := fun p => if p == win_lib_file "C:\\u" then some "IMPORTLIB" else none,
      copyFails := fun _ _ => true,
      copyErr := fun _ _ => "denied" },
    env :=
      { var := fun k => if k == "USERPROFILE" then some "C:\\u" else none,
        pkg_config_out := none,
        spack_location_out := none,
        glob := fun _ => none } }

/-- Concrete state with neither `HOME` nor `USERPROFILE` set. -/
def c7w_state : BuildState :=
  { fs := empty_fs,
    env :=
      { var := fun _ => none,
        pkg_config_out := none,
        spack_location_out := none,
        glob := fun _ => none } }

/-- Concrete runtime state for the environment-growth witness. -/
def c8_state : RtState :=
  { plat := .linux,
    current_dir := some "/app",
    vars := fun k => if k == "LD_LIBRARY_PATH" then some ["/lib"] else none,
    path_exists := fun _ => false }

/-- Concrete runtime state whose filesystem is empty. -/
def rt0 : RtState :=
  { plat := .linux,
    current_dir := none,
    vars := fun _ => none,
    path_exists := fun _ => false }

/-- Concrete GDAL library oracle with zero registered drivers. -/
def g0 : GdalLib :=
  { version_info := fun _ => "3.10.2",
    driver_count := 0,
    get_driver := fun _ => none,
    open_dataset := fun _ => Except.error "not opened" }

/-- Appending distributes over the underlying character lists. -/
theorem string_data_append (s t : String) : (s ++ t).data = s.data ++ t.data := rfl

/-- Appending the empty string on the right is the identity. -/
theorem string_append_empty (s : String) : s ++ "" = s := by
  cases s with
  | mk data => exact congrArg String.mk (List.append_nil data)

/-- Left cancellation for string append. -/
theorem string_append_cancel_left {u a b : String} (h : u ++ a = u ++ b) : a = b := by
  have h2 := congrArg String.data h
  rw [string_data_append, string_data_append] at h2
  have h3 := List.append_cancel_left h2
  cases a
  cases b
  simp_all

/-- Appending distinct suffixes to the same string yields distinct strings. -/
theorem string_append_right_ne (u : String) {a b : String} (h : a ≠ b) : u ++ a ≠ u ++ b :=
  fun he => h (string_append_cancel_left he)

/-- Stager copy destinations with distinct file names are distinct paths. -/
theorem stage_dst_inj {n m : String} (h : ("./" : String) ++ n = "./" ++ m) : n = m :=
  string_append_cancel_left h

/-- Stager copy sources (under a bundled `gdal-libs` directory) are never equal
to stager copy destinations (under the current directory). -/
theorem stage_src_ne_dst (plat : Platform) (n m : String) :
    stage_dir plat ++ "/" ++ n ≠ "./" ++ m := by
  intro h
  have h2 := congrArg String.data h
  rw [string_data_append, string_data_append, string_data_append] at h2
  cases plat <;> simp_all [stage_dir]

/-- Copying never changes the copy-failure oracle. -/
theorem fsCopy_copyFails (fs : BuildFs) (src dst : String) :
    (fsCopy fs src dst).1.copyFails = fs.copyFails := by
  unfold fsCopy
  split
  · rfl
  · split <;> rfl

/-- Copying never changes the copy-error oracle. -/
theorem fsCopy_copyErr (fs : BuildFs) (src dst : String) :
    (fsCopy fs src dst).1.copyErr = fs.copyErr := by
  unfold fsCopy
  split
  · rfl
  · split <;> rfl

/-- Copying never changes the directory-listing oracle. -/
theorem fsCopy_readDir (fs : BuildFs) (src dst : String) :
    (fsCopy fs src dst).1.readDir = fs.readDir := by
  unfold fsCopy
  split
  · rfl
  · split <;> rfl

/-- Copying leaves every path other than the destination untouched. -/
theorem fsCopy_content_ne (fs : BuildFs) (src dst p : String) (h : p ≠ dst) :
    (fsCopy fs src dst).1.content p = fs.content p := by
  unfold fsCopy
  split
  · rfl
  · split
    · rfl
    · simp [h]

/-- Copying leaves existence of every path other than the destination
untouched. -/
theorem fsCopy_pathExists_ne (fs : BuildFs) (src dst p : String) (h : p ≠ dst) :
    (fsCopy fs src dst).1.pathExists p = fs.pathExists p := by
  unfold fsCopy
  split
  · rfl
  · split
    · rfl
    · simp [h]

/-- When the failure oracle is clear and the source is readable, `fs::copy`
succeeds, the destination exists afterwards and holds the source bytes. -/
theorem fsCopy_success (fs : BuildFs) (src dst : String)
    (hf : fs.copyFails src dst = false) (hc : (fs.content src).isSome = true) :
    (fsCopy fs src dst).2 = true
    ∧ (fsCopy fs src dst).1.content dst = fs.content src
    ∧ (fsCopy fs src dst).1.pathExists dst = true := by
  unfold fsCopy
  rw [hf]
  cases hcs : fs.content src with
  | none => rw [hcs] at hc; simp at hc
  | some bytes => simp

/-- When the failure oracle blocks the copy or the source is unreadable,
`fs::copy` reports failure and leaves the filesystem unchanged. -/
theorem fsCopy_failure (fs : BuildFs) (src dst : String)
    (h : fs.copyFails src dst = true ∨ (fs.content src).isSome = false) :
    (fsCopy fs src dst).2 = false ∧ (fsCopy fs src dst).1 = fs := by
  unfold fsCopy
  rcases h with h | h
  · rw [h]; simp
  · cases hcs : fs.content src with
    | none => simp [hcs]
    | some bytes => rw [hcs] at h; simp at h

/-- The success bit of `fs::copy` in terms of the two oracle conditions. -/
theorem fsCopy_snd (fs : BuildFs) (src dst : String) :
    (fsCopy fs src dst).2 = (!(fs.copyFails src dst) && (fs.content src).isSome) := by
  unfold fsCopy
  cases h : fs.copyFails src dst
  · cases fs.content src <;> simp
  · simp

/-- The stager loop never changes the copy-failure oracle. -/
theorem copy_loop_copyFails (f : String → Bool) (dir : String) :
    ∀ (ns : List String) (fs : BuildFs),
      (copy_loop f dir fs ns).1.copyFails = fs.copyFails := by
  intro ns
  induction ns with
  | nil => intro fs; rfl
  | cons n rest ih =>
    intro fs
    simp only [copy_loop]
    cases hf : f n <;> simp only [if_true, if_false, Bool.false_eq_true, ite_false, ite_true]
    · exact ih fs
    · rw [ih, fsCopy_copyFails]

/-- The stager loop never changes the copy-error oracle. -/
theorem copy_loop_copyErr (f : String → Bool) (dir : String) :
    ∀ (ns : List String) (fs : BuildFs),
      (copy_loop f dir fs ns).1.copyErr = fs.copyErr := by
  intro ns
  induction ns with
  | nil => intro fs; rfl
  | cons n rest ih =>
    intro fs
    simp only [copy_loop]
    cases hf : f n <;> simp only [if_true, if_false, Bool.false_eq_true, ite_false, ite_true]
    · exact ih fs
    · rw [ih, fsCopy_copyErr]

/-- The stager loop leaves every path that is not the destination of some
matching entry untouched. -/
theorem copy_loop_content_frame (f : String → Bool) (dir : String) (p : String) :
    ∀ (ns : List String) (fs : BuildFs),
      (∀ n ∈ ns, f n = true → p ≠ "./" ++ n) →
      (copy_loop f dir fs ns).1.content p = fs.content p := by
  intro ns
  induction ns with
  | nil => intro fs _; rfl
  | cons n rest ih =>
    intro fs hp
    simp only [copy_loop]
    cases hf : f n <;> simp only [if_true, if_false, Bool.false_eq_true, ite_false, ite_true]
    · exact ih fs (fun k hk hfk => hp k (List.mem_cons_of_mem n hk) hfk)
    · rw [ih _ (fun k hk hfk => hp k (List.mem_cons_of_mem n hk) hfk),
        fsCopy_content_ne _ _ _ _ (hp n (List.mem_cons_self n rest) hf)]

/-- A copy that reports failure leaves the filesystem unchanged. -/
theorem fsCopy_fst_of_failed (fs : BuildFs) (src dst : String)
    (h : (fsCopy fs src dst).2 = false) : (fsCopy fs src dst).1 = fs := by
  rw [fsCopy_snd] at h
  unfold fsCopy
  cases hc : fs.copyFails src dst
  · cases hcs : fs.content src
    · simp [hc, hcs]
    · rw [hc, hcs] at h
      simp at h
  · simp [hc]

/-- Refined frame: the stager loop leaves every path untouched except the
destinations of matching entries whose copy succeeds. -/
theorem copy_loop_content_frame_succ (f : String → Bool) (dir : String) (p : String)
    (hsrc : ∀ a b : String, dir ++ "/" ++ a ≠ "./" ++ b) :
    ∀ (ns : List String) (fs : BuildFs),
      (∀ n ∈ ns, f n = true →
        (fsCopy fs (dir ++ "/" ++ n) ("./" ++ n)).2 = true → p ≠ "./" ++ n) →
      (copy_loop f dir fs ns).1.content p = fs.content p := by
  intro ns
  induction ns with
  | nil => intro fs _; rfl
  | cons n rest ih =>
    intro fs hp
    simp only [copy_loop]
    cases hf : f n <;> simp only [if_true, if_false, Bool.false_eq_true, ite_false, ite_true]
    · exact ih fs (fun k hk hfk => hp k (List.mem_cons_of_mem n hk) hfk)
    · have hrest : ∀ k ∈ rest, f k = true →
          (fsCopy (fsCopy fs (dir ++ "/" ++ n) ("./" ++ n)).1
            (dir ++ "/" ++ k) ("./" ++ k)).2 = true → p ≠ "./" ++ k := by
        intro k hk hfk hcopy
        refine hp k (List.mem_cons_of_mem n hk) hfk ?_
        rw [fsCopy_snd] at hcopy ⊢
        rw [fsCopy_copyFails, fsCopy_content_ne _ _ _ _ (hsrc k n)] at hcopy
        exact hcopy
      cases hsnd : (fsCopy fs (dir ++ "/" ++ n) ("./" ++ n)).2 with
      | false =>
        rw [ih _ hrest, fsCopy_fst_of_failed _ _ _ hsnd]
      | true =>
        rw [ih _ hrest,
          fsCopy_content_ne _ _ _ _ (hp n (List.mem_cons_self n rest) hf hsnd)]

/-- One copy step does not change the diagnostic any later copy produces, as
long as sources and destinations live in disjoint directories. -/
theorem copy_emission_fsCopy (fs : BuildFs) (dir n m : String)
    (hsrc : ∀ a b : String, dir ++ "/" ++ a ≠ "./" ++ b) :
    copy_emission (fsCopy fs (dir ++ "/" ++ n) ("./" ++ n)).1 dir m = copy_emission fs dir m := by
  unfold copy_emission
  rw [fsCopy_snd, fsCopy_snd, fsCopy_copyFails, fsCopy_copyErr,
    fsCopy_content_ne _ _ _ _ (hsrc m n)]

/-- The stager loop emits exactly one diagnostic per matching entry, in listing
order, each determined by the initial filesystem. -/
theorem copy_loop_emissions (f : String → Bool) (dir : String)
    (hsrc : ∀ a b : String, dir ++ "/" ++ a ≠ "./" ++ b) :
    ∀ (ns : List String) (fs : BuildFs),
      (copy_loop f dir fs ns).2 = (ns.filter f).map (copy_emission fs dir) := by
  intro ns
  induction ns with
  | nil => intro fs; rfl
  | cons n rest ih =>
    intro fs
    simp only [copy_loop, List.filter]
    cases hf : f n <;>
      simp only [if_true, if_false, Bool.false_eq_true, ite_false, ite_true]
    · exact ih fs
    · rw [List.map_cons, ih]
      have hfun : copy_emission (fsCopy fs (dir ++ "/" ++ n) ("./" ++ n)).1 dir
          = copy_emission fs dir :=
        funext (fun m => copy_emission_fsCopy fs dir n m hsrc)
      rw [hfun, copy_emission]

/-- For a matching entry with a clear failure oracle and readable source, the
stager loop ends with the destination holding the source bytes — independent of
what the destination held before and of failures on other entries. -/
theorem copy_loop_dest (f : String → Bool) (dir n : String)
    (hsrc : ∀ a b : String, dir ++ "/" ++ a ≠ "./" ++ b) :
    ∀ (ns : List String) (fs : BuildFs),
      ns.Nodup → n ∈ ns → f n = true →
      fs.copyFails (dir ++ "/" ++ n) ("./" ++ n) = false →
      (fs.content (dir ++ "/" ++ n)).isSome = true →
      (copy_loop f dir fs ns).1.content ("./" ++ n) = fs.content (dir ++ "/" ++ n) := by
  intro ns
  induction ns with
  | nil => intro fs _ hmem _ _ _; cases hmem
  | cons m rest ih =>
    intro fs hnd hmem hf hok hcs
    have hnotin : m ∉ rest := (List.nodup_cons.mp hnd).1
    have hnd' : rest.Nodup := (List.nodup_cons.mp hnd).2
    rcases List.mem_cons.mp hmem with rfl | hmem'
    · simp only [copy_loop, hf, if_true]
      have hframe : ∀ k ∈ rest, f k = true → ("./" ++ n : String) ≠ "./" ++ k := by
        intro k hk _ he
        exact hnotin (stage_dst_inj he ▸ hk)
      rw [copy_loop_content_frame f dir _ rest _ hframe]
      exact (fsCopy_success fs _ _ hok hcs).2.1
    · cases hfm : f m with
      | false =>
        simp only [copy_loop, hfm, Bool.false_eq_true, if_false]
        exact ih fs hnd' hmem' hf hok hcs
      | true =>
        simp only [copy_loop, hfm, if_true]
        have hok' : (fsCopy fs (dir ++ "/" ++ m) ("./" ++ m)).1.copyFails
            (dir ++ "/" ++ n) ("./" ++ n) = false := by
          rw [fsCopy_copyFails]; exact hok
        have hcs' : ((fsCopy fs (dir ++ "/" ++ m) ("./" ++ m)).1.content
            (dir ++ "/" ++ n)).isSome = true := by
          rw [fsCopy_content_ne _ _ _ _ (hsrc n m)]; exact hcs
        rw [ih _ hnd' hmem' hf hok' hcs',
          fsCopy_content_ne _ _ _ _ (hsrc n m)]

/-- The shared emission step never emits diagnostics, so filtering for linkage
directives keeps all of it. -/
theorem cgp_filter_link (plat : Platform) (a b c d : String) :
    List.filter isLinkEmission (configure_gdal_paths plat a b c d)
      = configure_gdal_paths plat a b c d := by
  unfold configure_gdal_paths
  cases plat <;> cases h : rust_contains a "pixi" <;>
    simp [h, List.filter_append, List.filter, isLinkEmission, isWarning]

/-- A trace without linkage directives consists of diagnostics only. -/
theorem all_warn_of_filter_nil {l : List Emission}
    (h : List.filter isLinkEmission l = []) :
    ∀ e ∈ l, isWarning e = true := by
  intro e he
  have h2 := List.filter_eq_nil_iff.mp h e he
  cases hw : isWarning e with
  | true => rfl
  | false =>
    exact absurd (by simp [isLinkEmission, hw]) h2

/-- Head success case of `firstSome`. -/
theorem firstSome_cons_some {α β : Type} (f : α → Option β) (a : α) (l : List α)
    (b : β) (h : f a = some b) : firstSome f (a :: l) = some b := by
  simp [firstSome, h]

/-- Head failure case of `firstSome`. -/
theorem firstSome_cons_none {α β : Type} (f : α → Option β) (a : α) (l : List α)
    (h : f a = none) : firstSome f (a :: l) = firstSome f l := by
  simp [firstSome, h]

/-- Singleton case of `firstSome`. -/
theorem firstSome_singleton {α β : Type} (f : α → Option β) (a : α) :
    firstSome f [a] = f a := by
  cases h : f a <;> simp [firstSome, h]

/-- Spack stage, result side: it accepts exactly the spack candidate that
passes the shared-library check. -/
theorem linux_step_spack_result (st : BuildState) (home : String) :
    (linux_step_spack st home).1
      = Option.map gdal_paths_for (accept_candidate st (find_spack_gdal_path st home)) := by
  unfold linux_step_spack accept_candidate
  cases h : find_spack_gdal_path st home with
  | none => rfl
  | some root =>
    cases hl : lib_ok st root with
    | true =>
      rw [lib_ok] at hl
      simp [gdal_paths_for, hl, lib_ok]
    | false =>
      rw [lib_ok] at hl
      simp [gdal_paths_for, hl, lib_ok]

/-- Spack stage, emission side: the linkage directives are exactly those of the
accepted candidate. -/
theorem linux_step_spack_link (st : BuildState) (home : String) :
    List.filter isLinkEmission (linux_step_spack st home).2
      = link_emissions_of (accept_candidate st (find_spack_gdal_path st home)) := by
  unfold linux_step_spack accept_candidate
  cases h : find_spack_gdal_path st home with
  | none => simp [List.filter, isLinkEmission, isWarning, link_emissions_of]
  | some root =>
    cases hl : lib_ok st root with
    | true =>
      rw [lib_ok] at hl
      simp [gdal_paths_for, hl, lib_ok, link_emissions_of, cgp_filter_link]
    | false =>
      rw [lib_ok] at hl
      simp [gdal_paths_for, hl, lib_ok, link_emissions_of, List.filter,
        isLinkEmission, isWarning]

/-- Pixi stage, result side: first accepted candidate among pixi then spack. -/
theorem linux_step_pixi_result (st : BuildState) (home : String) :
    (linux_step_pixi st home).1
      = Option.map gdal_paths_for
          (firstSome (accept_candidate st)
            [find_pixi_gdal_path st home, find_spack_gdal_path st home]) := by
  cases h : find_pixi_gdal_path st home with
  | none =>
    rw [firstSome_cons_none _ _ _ (by simp [accept_candidate, h]),
      firstSome_singleton, ← linux_step_spack_result]
    unfold linux_step_pixi
    rw [h]
  | some root =>
    cases hl : lib_ok st root with
    | true =>
      rw [firstSome_cons_some _ _ _ root (by simp [accept_candidate, h, hl])]
      unfold linux_step_pixi
      rw [h]
      rw [lib_ok] at hl
      simp [gdal_paths_for, hl]
    | false =>
      rw [firstSome_cons_none _ _ _ (by simp [accept_candidate, h, hl]),
        firstSome_singleton, ← linux_step_spack_result]
      unfold linux_step_pixi
      rw [h]
      rw [lib_ok] at hl
      simp [gdal_paths_for, hl]

/-- Pixi stage, emission side. -/
theorem linux_step_pixi_link (st : BuildState) (home : String) :
    List.filter isLinkEmission (linux_step_pixi st home).2
      = link_emissions_of
          (firstSome (accept_candidate st)
            [find_pixi_gdal_path st home, find_spack_gdal_path st home]) := by
  cases h : find_pixi_gdal_path st home with
  | none =>
    rw [firstSome_cons_none _ _ _ (by simp [accept_candidate, h]),
      firstSome_singleton, ← linux_step_spack_link]
    unfold linux_step_pixi
    rw [h]
  | some root =>
    cases hl : lib_ok st root with
    | true =>
      rw [firstSome_cons_some _ _ _ root (by simp [accept_candidate, h, hl])]
      unfold linux_step_pixi
      rw [h]
      rw [lib_ok] at hl
      simp [gdal_paths_for, hl, link_emissions_of, cgp_filter_link]
    | false =>
      rw [firstSome_cons_none _ _ _ (by simp [accept_candidate, h, hl]),
        firstSome_singleton, ← linux_step_spack_link]
      unfold linux_step_pixi
      rw [h]
      rw [lib_ok] at hl
      simp [gdal_paths_for, hl, List.filter, isLinkEmission, isWarning]

/-- System stage, result side: first accepted candidate among all three
strategies. -/
theorem linux_step_system_result (st : BuildState) (home : String) :
    (linux_step_system st home).1
      = Option.map gdal_paths_for (accepted_root st home) := by
  unfold accepted_root
  cases h : find_system_gdal_path st with
  | none =>
    rw [firstSome_cons_none _ _ _ (by simp [accept_candidate, h]),
      ← linux_step_pixi_result]
    unfold linux_step_system
    rw [h]
  | some root =>
    cases hl : lib_ok st root with
    | true =>
      rw [firstSome_cons_some _ _ _ root (by simp [accept_candidate, h, hl])]
      unfold linux_step_system
      rw [h]
      rw [lib_ok] at hl
      simp [gdal_paths_for, hl]
    | false =>
      rw [firstSome_cons_none _ _ _ (by simp [accept_candidate, h, hl]),
        ← linux_step_pixi_result]
      unfold linux_step_system
      rw [h]
      rw [lib_ok] at hl
      simp [gdal_paths_for, hl]

/-- System stage, emission side. -/
theorem linux_step_system_link (st : BuildState) (home : String) :
    List.filter isLinkEmission (linux_step_system st home).2
      = link_emissions_of (accepted_root st home) := by
  unfold accepted_root
  cases h : find_system_gdal_path st with
  | none =>
    rw [firstSome_cons_none _ _ _ (by simp [accept_candidate, h]),
      ← linux_step_pixi_link]
    unfold linux_step_system
    rw [h]
  | some root =>
    cases hl : lib_ok st root with
    | true =>
      rw [firstSome_cons_some _ _ _ root (by simp [accept_candidate, h, hl])]
      unfold linux_step_system
      rw [h]
      rw [lib_ok] at hl
      simp [gdal_paths_for, hl, link_emissions_of, cgp_filter_link]
    | false =>
      rw [firstSome_cons_none _ _ _ (by simp [accept_candidate, h, hl]),
        ← linux_step_pixi_link]
      unfold linux_step_system
      rw [h]
      rw [lib_ok] at hl
      simp [gdal_paths_for, hl, List.filter, isLinkEmission, isWarning]

/-- Whole Unix locator, result side, given that `HOME` is set. -/
theorem configure_linux_result (st : BuildState) (home : String)
    (h : st.env.var "HOME" = some home) :
    (configure_linux_gdal st).1 = Option.map gdal_paths_for (accepted_root st home) := by
  unfold configure_linux_gdal
  rw [h]
  exact linux_step_system_result st home

/-- Whole Unix locator, emission side, given that `HOME` is set. -/
theorem configure_linux_link (st : BuildState) (home : String)
    (h : st.env.var "HOME" = some home) :
    List.filter isLinkEmission (configure_linux_gdal st).2
      = link_emissions_of (accepted_root st home) := by
  unfold configure_linux_gdal
  rw [h]
  exact linux_step_system_link st home

/-- The Windows locator yields a discovery result exactly when `USERPROFILE` is
set and the primary import library exists below it. -/
theorem configure_windows_isSome (st : BuildState) :
    (configure_windows_gdal st).result.isSome = true
      ↔ ∃ up, st.env.var "USERPROFILE" = some up
          ∧ st.fs.pathExists (win_lib_file up) = true := by
  unfold configure_windows_gdal
  cases hv : st.env.var "USERPROFILE" with
  | none => simp
  | some up =>
    cases hl : st.fs.pathExists (win_lib_file up) with
    | true => simp [hl]
    | false => simp [hl]

/-- When the Windows locator fails discovery, it only emits diagnostics and
leaves the filesystem untouched. -/
theorem configure_windows_unconfigured (st : BuildState)
    (h : (configure_windows_gdal st).result = none) :
    (∀ e ∈ (configure_windows_gdal st).emissions, isWarning e = true)
    ∧ (configure_windows_gdal st).fs = st.fs := by
  unfold configure_windows_gdal
  cases hv : st.env.var "USERPROFILE" with
  | none => simp [isWarning]
  | some up =>
    cases hl : st.fs.pathExists (win_lib_file up) with
    | false => simp [hl, isWarning]
    | true =>
      exfalso
      unfold configure_windows_gdal at h
      rw [hv] at h
      simp [hl] at h

/-- One call of `setup_gdal_runtime` under a retrievable, separator-free
current directory and a set, separator-free search variable: the current
directory is prepended unconditionally, everything else is preserved. -/
theorem setup_step (st : RtState) (cwd : String) (old : List String)
    (hc : st.current_dir = some cwd)
    (hw : has_sep st.plat cwd = false)
    (hv : st.vars (search_var st.plat) = some old)
    (ho : old.any (has_sep st.plat) = false) :
    (setup_gdal_runtime st).vars (search_var st.plat) = some (cwd :: old)
    ∧ (setup_gdal_runtime st).plat = st.plat
    ∧ (setup_gdal_runtime st).current_dir = st.current_dir
    ∧ (∀ k, k ≠ search_var st.plat → (setup_gdal_runtime st).vars k = st.vars k) := by
  obtain ⟨plat, cd, vars, pe⟩ := st
  simp only at hc hv hw ho
  cases plat with
  | windows =>
    simp only [search_var] at hv ⊢
    simp only [has_sep] at hw ho ⊢
    subst hc
    simp [setup_gdal_runtime, join_paths, has_sep, hv, hw, ho, rt_set_var]
    intro k hk
    exact fun hke => absurd hke hk
  | linux =>
    simp only [search_var] at hv ⊢
    simp only [has_sep] at hw ho ⊢
    subst hc
    simp [setup_gdal_runtime, join_paths, has_sep, hv, hw, ho, rt_set_var]
    intro k hk
    exact fun hke => absurd hke hk

/-- Iterating `setup_gdal_runtime` prepends one copy of the current directory
per call: the search variable strictly grows with each call. -/
theorem setup_iterate (plat : Platform) (cwd : String)
    (hw : has_sep plat cwd = false) :
    ∀ (n : Nat) (st : RtState) (old : List String), st.plat = plat →
      st.current_dir = some cwd →
      st.vars (search_var plat) = some old →
      old.any (has_sep plat) = false →
      (setup_gdal_runtime^[n] st).vars (search_var plat)
        = some (List.replicate n cwd ++ old) := by
  intro n
  induction n with
  | zero => intro st old _ _ hv _; simpa using hv
  | succ n ih =>
    intro st old hp hc hv ho
    subst hp
    rw [Function.iterate_succ_apply]
    have hstep := setup_step st cwd old hc hw hv ho
    have hol : (cwd :: old).any (has_sep st.plat) = false := by
      simp [hw, ho]
    have hrec := ih (setup_gdal_runtime st) (cwd :: old)
      hstep.2.1 (hstep.2.2.1.trans hc) hstep.1 hol
    rw [hrec, List.replicate_succ']
    simp

/-- The push-loop of `get_gdal_info` is a `filterMap` over the index range. -/
theorem foldl_push_filterMap (g : GdalLib) :
    ∀ (l : List Nat) (acc : List String),
      l.foldl
        (fun acc i =>
          match g.get_driver i with
          | some driver => acc ++ [driver]
          | none => acc)
        acc
        = acc ++ l.filterMap g.get_driver := by
  intro l
  induction l with
  | nil => intro acc; simp
  | cons a t ih =>
    intro acc
    cases h : g.get_driver a <;> simp [h, ih, List.filterMap_cons]

/-- The formats list collected by `get_gdal_info`, as a `filterMap` over the
driver indices `0, 1, ..., driver_count - 1` in increasing order. -/
theorem collect_formats_eq (g : GdalLib) :
    collect_formats g = (List.range g.driver_count).filterMap g.get_driver := by
  unfold collect_formats
  rw [foldl_push_filterMap]
  simp

/-- Claim C5: `get_gdal_info` never returns an error for any library state,
and with zero registered drivers it returns a success payload with an empty
supported-formats list and (as long as the library reports a non-empty release
name) a non-empty version string. -/
theorem claim_c5_info_never_fails (st : RtState) (g : GdalLib)
    (hv : g.version_info "RELEASE_NAME" ≠ "") :
    (∀ g' : GdalLib, ∃ info, (get_gdal_info st g').result = Except.ok info)
    ∧ ∃ info, (get_gdal_info st g).result = Except.ok info
        ∧ info.version ≠ ""
        ∧ (g.driver_count = 0 → info.supported_formats = []) := by
  constructor
  · intro g'
    exact ⟨_, rfl⟩
  · refine ⟨_, rfl, hv, ?_⟩
    intro h0
    show collect_formats g = []
    rw [collect_formats_eq, h0]
    rfl

/-- Witness for claim C5 at a concrete zero-driver library. -/
theorem claim_c5_witness :
    g0.version_info "RELEASE_NAME" ≠ ""
    ∧ ∃ info, (get_gdal_info rt0 g0).result = Except.ok info
        ∧ info.version ≠ "" ∧ info.supported_formats = [] := by
  obtain ⟨info, hok, hver, hfmt⟩ := (claim_c5_info_never_fails rt0 g0 (by decide)).2
  exact ⟨by decide, info, hok, hver, hfmt rfl⟩

/-- Claim C6: for a path that does not exist, `get_dataset_info` returns an
error containing the path and never reaches the native open call. -/
theorem claim_c6_missing_file (st : RtState) (g : GdalLib) (p : String)
    (h : st.path_exists p = false) :
    (get_dataset_info st g p).result = Except.error ("File not found: " ++ p)
    ∧ (get_dataset_info st g p).openInvoked = false
    ∧ ∃ pre post : String, ("File not found: " ++ p : String) = pre ++ p ++ post := by
  unfold get_dataset_info
  rw [h]
  refine ⟨rfl, rfl, "File not found: ", "", ?_⟩
  exact (string_append_empty _).symm

/-- Witness for claim C6 at a concrete missing path. -/
theorem claim_c6_witness :
    rt0.path_exists "/data/missing.tif" = false
    ∧ (get_dataset_info rt0 g0 "/data/missing.tif").result
        = Except.error "File not found: /data/missing.tif"
    ∧ (get_dataset_info rt0 g0 "/data/missing.tif").openInvoked = false := by
  have h := claim_c6_missing_file rt0 g0 "/data/missing.tif" (by decide)
  exact ⟨by decide, h.1.trans (by rfl), h.2.1⟩

/-- Claim C10: the supported-formats list is gathered from driver indices
`0, ..., driver_count - 1` in increasing order, silently skipping failed
retrievals, so it equals the `filterMap` over the index range and its length
is at most the driver count. -/
theorem claim_c10_formats_order (st : RtState) (g : GdalLib) :
    ∃ info, (get_gdal_info st g).result = Except.ok info
      ∧ info.supported_formats = (List.range g.driver_count).filterMap g.get_driver
      ∧ info.supported_formats.length ≤ g.driver_count := by
  refine ⟨_, rfl, collect_formats_eq g, ?_⟩
  show (collect_formats g).length ≤ g.driver_count
  rw [collect_formats_eq]
  calc ((List.range g.driver_count).filterMap g.get_driver).length
      ≤ (List.range g.driver_count).length := List.length_filterMap_le _ _
    _ = g.driver_count := List.length_range _

/-- Claim C4: the stager attempts exactly the entries matching the platform
filter (one diagnostic each, in listing order), touches no other path, copies
each matching, copyable file independently of failures on other files, and
does nothing when the bundled directory is missing. -/
theorem claim_c4_stager_exact (plat : Platform) (fs : BuildFs) :
    (fs.pathExists (stage_dir plat) = false → copy_gdal_libraries plat fs = (fs, []))
    ∧ (∀ names, fs.pathExists (stage_dir plat) = true →
        fs.readDir (stage_dir plat) = some names →
        ((copy_gdal_libraries plat fs).2
            = (names.filter (stage_filter plat)).map (copy_emission fs (stage_dir plat))
         ∧ (∀ p, (∀ n ∈ names, stage_filter plat n = true →
                (fsCopy fs (stage_dir plat ++ "/" ++ n) ("./" ++ n)).2 = true →
                p ≠ "./" ++ n) →
              (copy_gdal_libraries plat fs).1.content p = fs.content p)
         ∧ (names.Nodup → ∀ n ∈ names, stage_filter plat n = true →
              fs.copyFails (stage_dir plat ++ "/" ++ n) ("./" ++ n) = false →
              (fs.content (stage_dir plat ++ "/" ++ n)).isSome = true →
              (copy_gdal_libraries plat fs).1.content ("./" ++ n)
                = fs.content (stage_dir plat ++ "/" ++ n)))) := by
  constructor
  · intro h
    unfold copy_gdal_libraries
    rw [h]
    simp
  · intro names hpe hrd
    unfold copy_gdal_libraries
    rw [hpe, hrd]
    simp only [if_true]
    exact ⟨copy_loop_emissions (stage_filter plat) (stage_dir plat)
        (stage_src_ne_dst plat) names fs,
      fun p hp => copy_loop_content_frame_succ (stage_filter plat) (stage_dir plat) p
        (stage_src_ne_dst plat) names fs hp,
      fun hnd n hm hf hok hcs => copy_loop_dest (stage_filter plat) (stage_dir plat) n
        (stage_src_ne_dst plat) names fs hnd hm hf hok hcs⟩

/-- Witness for claim C4: three matching libraries and one unrelated file; the
middle copy fails, the other two still land, the unrelated file is not staged. -/
theorem claim_c4_witness :
    (copy_gdal_libraries .linux c4_state).1.content "./liba.so" = some "A"
    ∧ (copy_gdal_libraries .linux c4_state).1.content "./libc.so" = some "C"
    ∧ (copy_gdal_libraries .linux c4_state).1.content "./libb.so" = c4_state.content "./libb.so"
    ∧ (copy_gdal_libraries .linux c4_state).1.content "./notes.txt" = c4_state.content "./notes.txt"
    ∧ (copy_gdal_libraries .linux c4_state).2
        = (["liba.so", "libb.so", "libc.so", "notes.txt"].filter (stage_filter .linux)).map
            (copy_emission c4_state "gdal-libs/linux") := by
  have h := (claim_c4_stager_exact .linux c4_state).2
      ["liba.so", "libb.so", "libc.so", "notes.txt"] (by decide) (by decide)
  refine ⟨?_, ?_, ?_, ?_, h.1⟩
  · exact (h.2.2 (by decide) "liba.so" (by decide) (by decide) (by decide) (by decide)).trans
      (by decide)
  · exact (h.2.2 (by decide) "libc.so" (by decide) (by decide) (by decide) (by decide)).trans
      (by decide)
  · exact h.2.1 "./libb.so" (by decide)
  · exact h.2.1 "./notes.txt" (by decide)

/-- Claim C9: every stager copy targets the current directory under the
source file name, silently overwriting whatever was there: after a successful
copy the destination holds the source bytes with no assumption on the previous
destination content, and every emitted diagnostic is a copied/failed-to-copy
line (none mentions an overwrite). -/
theorem claim_c9_silent_overwrite (plat : Platform) (fs : BuildFs) (names : List String)
    (hpe : fs.pathExists (stage_dir plat) = true)
    (hrd : fs.readDir (stage_dir plat) = some names)
    (hnd : names.Nodup) (n : String) (hm : n ∈ names)
    (hf : stage_filter plat n = true)
    (hok : fs.copyFails (stage_dir plat ++ "/" ++ n) ("./" ++ n) = false)
    (hcs : (fs.content (stage_dir plat ++ "/" ++ n)).isSome = true) :
    (copy_gdal_libraries plat fs).1.content ("./" ++ n)
      = fs.content (stage_dir plat ++ "/" ++ n)
    ∧ (∀ e ∈ (copy_gdal_libraries plat fs).2, ∃ m,
        e = Emission.warning
            ("Copied " ++ (stage_dir plat ++ "/" ++ m) ++ " to " ++ ("./" ++ m))
        ∨ e = Emission.warning
            ("Failed to copy " ++ (stage_dir plat ++ "/" ++ m) ++ ": "
              ++ fs.copyErr (stage_dir plat ++ "/" ++ m) ("./" ++ m))) := by
  unfold copy_gdal_libraries
  rw [hpe, hrd]
  simp only [if_true]
  constructor
  · exact copy_loop_dest (stage_filter plat) (stage_dir plat) n
      (stage_src_ne_dst plat) names fs hnd hm hf hok hcs
  · intro e he
    rw [copy_loop_emissions (stage_filter plat) (stage_dir plat)
        (stage_src_ne_dst plat) names fs] at he
    obtain ⟨m, hmem, rfl⟩ := List.mem_map.mp he
    refine ⟨m, ?_⟩
    unfold copy_emission
    split
    · exact Or.inl rfl
    · exact Or.inr rfl

/-- Witness for claim C9: the destination of the first library already holds
other bytes before staging; after staging it holds the source bytes, and the
trace mentions only copy diagnostics. -/
theorem claim_c9_witness :
    (copy_gdal_libraries .linux
        { c4_state with
            content := fun p => if p == "./liba.so" then some "OLD" else c4_state.content p,
            pathExists := fun p => p == "gdal-libs/linux" || p == "./liba.so" }).1.content
        "./liba.so" = some "A"
    ∧ ∀ e ∈ (copy_gdal_libraries .linux c4_state).2, isWarning e = true := by
  constructor
  · exact (claim_c9_silent_overwrite .linux _
      ["liba.so", "libb.so", "libc.so", "notes.txt"] (by decide) (by decide) (by decide)
      "liba.so" (by decide) (by decide) (by decide) (by decide)).1.trans (by decide)
  · intro e he
    obtain ⟨m, hc | hc⟩ := (claim_c9_silent_overwrite .linux c4_state
        ["liba.so", "libb.so", "libc.so", "notes.txt"] (by decide) (by decide) (by decide)
        "liba.so" (by decide) (by decide) (by decide) (by decide)).2 e he <;>
      rw [hc] <;> rfl

/-- Counterexample to claim C2 as stated: pkg-config succeeds with the existing
prefix `/pkgroot` whose `lib/libgdal.so` is missing, yet the strategy returns
`/pkgroot` instead of falling back to the fixed list (which would yield
`/usr`). -/
theorem claim_c2_counterexample :
    c2_state.env.pkg_config_out = some { success := true, stdout := "/pkgroot" }
    ∧ c2_state.fs.pathExists "/pkgroot" = true
    ∧ c2_state.fs.pathExists ("/pkgroot" ++ "/lib/libgdal.so") = false
    ∧ List.find? (fun p => c2_state.fs.pathExists (p ++ "/lib/libgdal.so"))
        ["/usr", "/usr/local", "/opt/gdal"] = some "/usr"
    ∧ find_system_gdal_path c2_state = some "/pkgroot"
    ∧ find_system_gdal_path c2_state
        ≠ List.find? (fun p => c2_state.fs.pathExists (p ++ "/lib/libgdal.so"))
            ["/usr", "/usr/local", "/opt/gdal"] := by
  exact ⟨rfl, by decide, by decide, by decide, by decide, by decide⟩

/-- Claim C2 (amended): the fixed-prefix fallback is taken exactly when the
pkg-config query is unavailable, fails, or returns an empty or non-existing
path — a pkg-config prefix that exists but lacks `lib/libgdal.so` is still
returned by the strategy (the enclosing procedure then rejects it and moves to
the next strategy, not to the fixed list). -/
theorem claim_c2_amended_fallback (st : BuildState) (h : pkg_query_rejected st) :
    find_system_gdal_path st
      = List.find? (fun p => st.fs.pathExists (p ++ "/lib/libgdal.so"))
          ["/usr", "/usr/local", "/opt/gdal"] := by
  unfold find_system_gdal_path
  unfold pkg_query_rejected at h
  cases hp : st.env.pkg_config_out with
  | none => rfl
  | some output =>
    rw [hp] at h
    cases hs : output.success with
    | false => simp [hs]
    | true =>
      rcases h with h | h | h
      · rw [hs] at h
        cases h
      · simp [hs, h]
      · by_cases ht : rust_trim output.stdout = ""
        · simp [hs, ht]
        · simp [hs, ht, h]

/-- Witness for the amended claim C2 at a concrete failing pkg-config query. -/
theorem claim_c2_amended_witness :
    pkg_query_rejected c2b_state
    ∧ find_system_gdal_path c2b_state = some "/usr/local" := by
  refine ⟨Or.inl rfl, ?_⟩
  exact (claim_c2_amended_fallback c2b_state (Or.inl rfl)).trans (by decide)

/-- Claim C8: both command handlers first run `setup_gdal_runtime`, which
prepends the current working directory to the platform search variable without
any membership check, so the variable grows by one entry per call. -/
theorem claim_c8_env_growth (st : RtState) (g : GdalLib) (p cwd : String)
    (old : List String)
    (hc : st.current_dir = some cwd)
    (hw : has_sep st.plat cwd = false)
    (hv : st.vars (search_var st.plat) = some old)
    (ho : old.any (has_sep st.plat) = false) :
    (get_gdal_info st g).state = setup_gdal_runtime st
    ∧ (get_dataset_info st g p).state = setup_gdal_runtime st
    ∧ (setup_gdal_runtime st).vars (search_var st.plat) = some (cwd :: old)
    ∧ ∀ n, (setup_gdal_runtime^[n] st).vars (search_var st.plat)
        = some (List.replicate n cwd ++ old) := by
  refine ⟨rfl, ?_, (setup_step st cwd old hc hw hv ho).1,
    fun n => setup_iterate st.plat cwd hw n st old rfl hc hv ho⟩
  unfold get_dataset_info
  split
  · rfl
  · split <;> rfl

/-- Witness for claim C8: two successive calls prepend `/app` twice, with no
deduplication. -/
theorem claim_c8_witness :
    (setup_gdal_runtime c8_state).vars "LD_LIBRARY_PATH" = some ["/app", "/lib"]
    ∧ (setup_gdal_runtime^[2] c8_state).vars "LD_LIBRARY_PATH"
        = some ["/app", "/app", "/lib"]
    ∧ (get_gdal_info c8_state g0).state = setup_gdal_runtime c8_state := by
  have h := claim_c8_env_growth c8_state g0 "/x" "/app" ["/lib"]
    (by decide) (by decide) (by decide) (by decide)
  exact ⟨h.2.2.1, (h.2.2.2 2).trans (by decide), h.1⟩


/-- Claim C3: on Windows, when `gdal.lib` exists under the profile pixi path
and the alternately-named import libraries do not, the locator copies the
primary under each alternate name, so that (the filesystem admitting the
copies) both alternates exist afterwards with content identical to `gdal.lib`. -/
theorem claim_c3_import_synthesis (st : BuildState) (up : String)
    (hup : st.env.var "USERPROFILE" = some up)
    (hlib : st.fs.pathExists (win_lib_file up) = true)
    (hi : st.fs.pathExists (win_i_lib_file up) = false)
    (hd : st.fs.pathExists (win_dll_lib_file up) = false)
    (hf1 : st.fs.copyFails (win_lib_file up) (win_i_lib_file up) = false)
    (hf2 : st.fs.copyFails (win_lib_file up) (win_dll_lib_file up) = false)
    (hcs : (st.fs.content (win_lib_file up)).isSome = true) :
    (configure_windows_gdal st).fs.pathExists (win_i_lib_file up) = true
    ∧ (configure_windows_gdal st).fs.pathExists (win_dll_lib_file up) = true
    ∧ (configure_windows_gdal st).fs.content (win_i_lib_file up)
        = st.fs.content (win_lib_file up)
    ∧ (configure_windows_gdal st).fs.content (win_dll_lib_file up)
        = st.fs.content (win_lib_file up) := by
  have hne_si : win_lib_file up ≠ win_i_lib_file up :=
    string_append_right_ne up (by decide)
  have hne_id : win_i_lib_file up ≠ win_dll_lib_file up :=
    string_append_right_ne up (by decide)
  have hs1 := fsCopy_success st.fs (win_lib_file up) (win_i_lib_file up) hf1 hcs
  have hpe1 : (fsCopy st.fs (win_lib_file up) (win_i_lib_file up)).1.pathExists
      (win_dll_lib_file up) = false := by
    rw [fsCopy_pathExists_ne _ _ _ _ (Ne.symm hne_id)]
    exact hd
  have hf2s : (fsCopy st.fs (win_lib_file up) (win_i_lib_file up)).1.copyFails
      (win_lib_file up) (win_dll_lib_file up) = false := by
    rw [fsCopy_copyFails]
    exact hf2
  have hcs2 : ((fsCopy st.fs (win_lib_file up) (win_i_lib_file up)).1.content
      (win_lib_file up)).isSome = true := by
    rw [fsCopy_content_ne _ _ _ _ hne_si]
    exact hcs
  have hs2 := fsCopy_success (fsCopy st.fs (win_lib_file up) (win_i_lib_file up)).1
    (win_lib_file up) (win_dll_lib_file up) hf2s hcs2
  unfold configure_windows_gdal
  rw [hup]
  simp only [hlib, if_true, hi, hpe1, ite_true, ite_false]
  refine ⟨?_, hs2.2.2, ?_, ?_⟩
  · rw [fsCopy_pathExists_ne _ _ _ _ hne_id]
    exact hs1.2.2
  · rw [fsCopy_content_ne _ _ _ _ hne_id]
    exact hs1.2.1
  · rw [hs2.2.1, fsCopy_content_ne _ _ _ _ hne_si]

/-- Witness for claim C3 at a concrete profile with both alternates missing. -/
theorem claim_c3_witness :
    (configure_windows_gdal c3_state).fs.pathExists (win_i_lib_file "C:\\u") = true
    ∧ (configure_windows_gdal c3_state).fs.pathExists (win_dll_lib_file "C:\\u") = true
    ∧ (configure_windows_gdal c3_state).fs.content (win_i_lib_file "C:\\u")
        = some "IMPORTLIB"
    ∧ (configure_windows_gdal c3_state).fs.content (win_dll_lib_file "C:\\u")
        = some "IMPORTLIB" := by
  have h := claim_c3_import_synthesis c3_state "C:\\u" (by decide) (by decide)
    (by decide) (by decide) (by decide) (by decide) (by decide)
  exact ⟨h.1, h.2.1, h.2.2.1.trans (by decide), h.2.2.2.trans (by decide)⟩

/-- Claim C7 (amended): the locator never hard-fails on either branch; a
missing home/profile variable, a failed discovery and a missing library file
emit only diagnostics and leave the build unconfigured (filesystem untouched on
Windows), while a failed import-library synthesis emits a diagnostic but
discovery still succeeds and the build is still configured — the Windows result
is present exactly when `USERPROFILE` is set and `gdal.lib` exists. -/
theorem claim_c7_soft_failure (st : BuildState) :
    ((configure_linux_gdal st).1 = none →
        ∀ e ∈ (configure_linux_gdal st).2, isWarning e = true)
    ∧ ((configure_windows_gdal st).result = none →
        (∀ e ∈ (configure_windows_gdal st).emissions, isWarning e = true)
        ∧ (configure_windows_gdal st).fs = st.fs)
    ∧ ((configure_windows_gdal st).result.isSome = true ↔
        ∃ up, st.env.var "USERPROFILE" = some up
          ∧ st.fs.pathExists (win_lib_file up) = true) := by
  refine ⟨?_, configure_windows_unconfigured st, configure_windows_isSome st⟩
  intro h e he
  cases hv : st.env.var "HOME" with
  | none =>
    unfold configure_linux_gdal at he
    rw [hv] at he
    simp only [List.mem_singleton] at he
    subst he
    rfl
  | some home =>
    have hr := configure_linux_result st home hv
    rw [h] at hr
    have hnone : accepted_root st home = none := by
      cases ha : accepted_root st home with
      | none => rfl
      | some root => rw [ha] at hr; exact absurd hr (by simp)
    have hl := configure_linux_link st home hv
    rw [hnone] at hl
    exact all_warn_of_filter_nil hl e he

/-- Counterexample to claim C7 as stated: with `gdal.lib` present but every
copy failing, import-library synthesis fails (a diagnostic is emitted) yet the
build is still configured — a discovery result is produced and non-diagnostic
linkage directives are emitted. -/
theorem claim_c7_counterexample :
    Emission.warning "Failed to create gdal_i.lib: denied"
        ∈ (configure_windows_gdal c7ce_state).emissions
    ∧ (configure_windows_gdal c7ce_state).result.isSome = true
    ∧ List.filter isLinkEmission (configure_windows_gdal c7ce_state).emissions ≠ [] := by
  exact ⟨by decide, by decide, by decide⟩

/-- Witness for the amended claim C7 at a state with no profile variables. -/
theorem claim_c7_witness :
    (∀ e ∈ (configure_linux_gdal c7w_state).2, isWarning e = true)
    ∧ (∀ e ∈ (configure_windows_gdal c7w_state).emissions, isWarning e = true)
    ∧ (configure_windows_gdal c7w_state).fs = c7w_state.fs := by
  have h := claim_c7_soft_failure c7w_state
  have hw := h.2.1 (by decide)
  exact ⟨h.1 (by decide), hw.1, hw.2⟩

/-- Claim C1: on Unix, at most one discovery result is accepted — the
candidate of the highest-priority strategy (system, then pixi, then spack)
whose root contains `lib/libgdal.so` — all linkage emission is derived solely
from it, and once the system strategy's candidate passes the check, the oracles
consulted only by the later strategies cannot influence the outcome. -/
theorem claim_c1_single_accepted (st : BuildState) (home : String)
    (h : st.env.var "HOME" = some home) :
    (configure_linux_gdal st).1 = Option.map gdal_paths_for (accepted_root st home)
    ∧ List.filter isLinkEmission (configure_linux_gdal st).2
        = link_emissions_of (accepted_root st home)
    ∧ (∀ root, accept_candidate st (find_system_gdal_path st) = some root →
        ∀ rd gl sp, configure_linux_gdal (override_later st rd gl sp)
          = configure_linux_gdal st) := by
  refine ⟨configure_linux_result st home h, configure_linux_link st home h, ?_⟩
  intro root hacc rd gl sp
  cases hfs : find_system_gdal_path st with
  | none =>
    unfold accept_candidate at hacc
    rw [hfs] at hacc
    cases hacc
  | some r =>
    unfold accept_candidate at hacc
    rw [hfs] at hacc
    simp only [Option.some_bind] at hacc
    have hl : lib_ok st r = true := by
      by_contra hlf
      rw [if_neg hlf] at hacc
      cases hacc
    unfold configure_linux_gdal
    have hv2 : (override_later st rd gl sp).env.var "HOME" = some home := h
    rw [hv2, h]
    unfold linux_step_system
    have hfs2 : find_system_gdal_path (override_later st rd gl sp)
        = find_system_gdal_path st := rfl
    rw [hfs2, hfs]
    rw [lib_ok] at hl
    have hpe2 : (override_later st rd gl sp).fs.pathExists (r ++ "/lib/libgdal.so")
        = true := hl
    simp [gdal_paths_for, hl, hpe2]

/-- Witness for claim C1: the system strategy accepts `/usr`, and the result
and linkage trace are exactly those derived from it. -/
theorem claim_c1_witness :
    accepted_root c1_state "/home/user" = some "/usr"
    ∧ (configure_linux_gdal c1_state).1 = some (gdal_paths_for "/usr")
    ∧ List.filter isLinkEmission (configure_linux_gdal c1_state).2
        = link_emissions_of (some "/usr") := by
  have h := claim_c1_single_accepted c1_state "/home/user" (by decide)
  have ha : accepted_root c1_state "/home/user" = some "/usr" := by decide
  refine ⟨ha, ?_, ?_⟩
  · rw [h.1, ha]
    rfl
  · rw [h.2.1, ha]
